import Mathlib

/-!
Verification of `plasmapy/formulary/parameters.py` (plasma formulary engine).

The module is embedded shallowly over `ℚ`:

* Physical quantities are rational magnitudes in SI units.  The unit /
  dimension bookkeeping of `astropy.units` is an external substrate (spec §1
  declares it out of scope); on validated SI inputs every `.to(...)`
  conversion is magnitude preserving, except the one conversion performed
  inside `ion_sound_speed`'s guarded `try` block, which is kept fallible via
  the substrate record `NumOps.to_m_per_s`.
* Irrational primitives (`np.sqrt`, `np.pi`, `** -0.5`) belong to the same
  external numeric substrate and are carried as fields of `NumOps`; the
  formula definitions below apply them exactly where the Python code does.
* A possibly-NaN scalar is `Option ℚ` (`none` = NaN); a scalar-or-array
  quantity is `QVal`.
* Python exceptions become `Except PErr`, non-fatal warnings are collected in
  a `List PWarn` alongside the returned value.
* The particle database (`plasmapy.atomic`) and the decorators
  (`validate_quantities`, `check_relativistic`) are repository code that is
  not under `src/`; they are modelled from the spec (§4.1, §4.2, §4.3) where
  noted.
-/

namespace Plasma

/-- Error taxonomy of the module (spec §7): Python exception classes raised by
the formulary code and its collaborators. -/
inductive PErr where
  | valueError (msg : String)
  | physicsError (msg : String)
  | typeError (msg : String)
  | negativeValueError
  | invalidValueError
  | missingParameterError
  | relativityError
  | invalidParticleError (msg : String)
  deriving DecidableEq, Repr

/-- Non-fatal warnings emitted by the module (spec §7). -/
inductive PWarn where
  | relativityWarning
  | physicsWarning
  | unitsWarning
  deriving DecidableEq, Repr

/-- Speed of light in vacuum in m/s (exact SI value), `astropy.constants.si.c`. -/
def c : ℚ := 299792458

/-- Elementary charge in coulomb (exact SI value), `astropy.constants.si.e`. -/
def e_charge : ℚ := 1602176634 / 10 ^ 28

/-- Boltzmann constant in J/K (exact SI value), `astropy.constants.si.k_B`. -/
def k_B : ℚ := 1380649 / 10 ^ 29

/-- Vacuum permittivity in F/m (CODATA), `astropy.constants.si.eps0`. -/
def eps0 : ℚ := 88541878128 / 10 ^ 22

/-- Vacuum permeability in N/A^2 (CODATA), `astropy.constants.si.mu0`. -/
def mu0 : ℚ := 125663706212 / 10 ^ 17

/-- Electron mass in kg (CODATA), `astropy.constants.si.m_e`. -/
def m_e : ℚ := 91093837015 / 10 ^ 41

/-- Deuteron mass in kg (CODATA); used by concrete test inputs. -/
def m_D : ℚ := 33435837724 / 10 ^ 37

/-- Numeric substrate supplied by numpy / astropy (spec §1 places the
quantity arithmetic outside the core): square root, pi, the `** -0.5`
power, and the sole fallible unit conversion `.to(u.m / u.s)` appearing
inside `ion_sound_speed`'s `try` block. -/
structure NumOps where
  sqrt : ℚ → ℚ
  pi : ℚ
  powNegHalf : ℚ → ℚ
  to_m_per_s : ℚ → Except PErr ℚ

/-- Modelled from the spec: the external Particle Resolver (§4.2,
`plasmapy.atomic`, not under `src/`).  `particle_mass` and `integer_charge`
are the two fallible lookups the formulary code performs on a species
descriptor; a failure is the resolver's `InvalidParticleError` (or any other
exception it raises). -/
structure Atomic where
  particle_mass : String → Except PErr ℚ
  integer_charge : String → Except PErr ℤ

/-- Modelled from the spec: per-parameter value constraints of the Quantity
Validator (§4.1, `validate_quantities`, not under `src/`). -/
structure ValidationSpec where
  can_be_negative : Bool
  can_be_nan : Bool

/-- Modelled from the spec: the Quantity Validator's value check (§4.1) on a
possibly-NaN scalar (`none` = NaN).  NaN fails with `InvalidValueError`
unless `can_be_nan`; a negative value fails with `NegativeValueError`
unless `can_be_negative`. -/
def validate_value (spec : ValidationSpec) (v : Option ℚ) : Except PErr (Option ℚ) :=
  match v with
  | none => if spec.can_be_nan then .ok none else .error .invalidValueError
  | some x =>
      if !spec.can_be_negative && decide (x < 0) then .error .negativeValueError
      else .ok (some x)

/-- Maximum of the absolute values of a list (0 for the empty list); how the
Relativistic Guard reduces an array-valued result (spec §4.3). -/
def maxAbs (vs : List ℚ) : ℚ :=
  (vs.map (fun v => |v|)).foldl max 0

/-- Modelled from the spec: the Relativistic Guard (§4.3,
`check_relativistic`, not under `src/`) on a scalar speed: fatal
`RelativityError` at `|v| ≥ c`, a `RelativityWarning` with the value
returned unchanged at `|v| ≥ 0.05 c`, the plain value below that. -/
def check_relativistic1 (v : ℚ) : Except PErr (ℚ × List PWarn) :=
  if c ≤ |v| then .error .relativityError
  else if 5 / 100 * c ≤ |v| then .ok (v, [PWarn.relativityWarning])
  else .ok (v, [])

/-- Modelled from the spec: the Relativistic Guard (§4.3) on an array-valued
result, testing the maximum magnitude across elements. -/
def check_relativistic_list (vs : List ℚ) : Except PErr (List ℚ × List PWarn) :=
  if c ≤ maxAbs vs then .error .relativityError
  else if 5 / 100 * c ≤ maxAbs vs then .ok (vs, [PWarn.relativityWarning])
  else .ok (vs, [])

/-- Composition of a warning-carrying computation with the Relativistic Guard
(the `@check_relativistic` decorator wrapping the function's result). -/
def guarded (r : Except PErr (ℚ × List PWarn)) : Except PErr (ℚ × List PWarn) :=
  r.bind fun p => (check_relativistic1 p.1).map fun q => (q.1, p.2 ++ q.2)

/-- Embeds `_grab_charge` (parameters.py lines 38-64): if `z_mean` was
passed, `z_mean`; otherwise the integer charge of the ion (whose resolution
failure propagates). -/
def grab_charge (atomic : Atomic) (ion : String) (z_mean : Option ℚ) : Except PErr ℚ :=
  match z_mean with
  | none => (atomic.integer_charge ion).map (fun z => (z : ℚ))
  | some z => .ok z

/-- The `density` argument of `mass_density` / `Alfven_speed`: the code
branches on `rho.unit.is_equivalent(u.kg / u.m ** 3)`, i.e. on whether the
validated quantity carries a mass-density or a number-density dimension. -/
inductive Density where
  | massDensity (rho : ℚ)
  | numberDensity (n : ℚ)
  deriving DecidableEq, Repr

/-- Embeds `mass_density` (parameters.py lines 67-121).  The decorator
validates the input and the return value as non-negative; a mass density is
returned as-is; a number density requires a particle and yields
`rho = n * m_i + Z * n * m_e` with `Z` from `_grab_charge`. -/
def mass_density (atomic : Atomic) (density : Density) (particle : Option String)
    (z_mean : Option ℚ) : Except PErr ℚ :=
  match density with
  | .massDensity rho =>
      if rho < 0 then .error .negativeValueError else .ok rho
  | .numberDensity n =>
      if n < 0 then .error .negativeValueError
      else
        match particle with
        | some p =>
            (atomic.particle_mass p).bind fun m_i =>
            (grab_charge atomic p z_mean).bind fun Z =>
            let rho := n * m_i + Z * n * m_e
            if rho < 0 then .error .negativeValueError else .ok rho
        | none =>
            .error (.valueError "If passing a number density, you must pass a particle to calculate the mass density!")

/-- Embeds the body of `Alfven_speed` (parameters.py lines 124-219) before
the `@check_relativistic` decorator: `V_A = |B| / sqrt(mu0 * rho)` with
`rho` from `mass_density`. -/
def Alfven_speed_core (ops : NumOps) (atomic : Atomic) (B : ℚ) (density : Density)
    (ion : String) (z_mean : Option ℚ) : Except PErr ℚ :=
  (mass_density atomic density (some ion) z_mean).map fun rho =>
    |B| / ops.sqrt (mu0 * rho)

/-- Embeds `Alfven_speed`: the body wrapped by the Relativistic Guard. -/
def Alfven_speed (ops : NumOps) (atomic : Atomic) (B : ℚ) (density : Density)
    (ion : String) (z_mean : Option ℚ) : Except PErr (ℚ × List PWarn) :=
  (Alfven_speed_core ops atomic B density ion z_mean).bind check_relativistic1

/-- Embeds `Debye_length` (parameters.py lines 1077-1141):
`lambda_D = sqrt(eps0 * k_B * T_e / (n_e * e ** 2))`, its decorator
rejecting negative temperature or density. -/
def Debye_length (ops : NumOps) (T_e n_e : ℚ) : Except PErr ℚ :=
  if T_e < 0 then .error .negativeValueError
  else if n_e < 0 then .error .negativeValueError
  else .ok (ops.sqrt (eps0 * k_B * T_e / (n_e * e_charge ^ 2)))

/-- True when an optional validated quantity is present and negative. -/
def opt_neg : Option ℚ → Bool
  | some x => decide (x < 0)
  | none => false

/-- Embeds the dispersion-correction branch of `ion_sound_speed`
(parameters.py lines 378-386): with both `n_e` and `k`,
`klD2 = (k * lambda_D) ** 2`; with exactly one of them, `klD2 = 0` plus a
`PhysicsWarning`; with neither, `klD2 = 0` silently. -/
def dispersion_klD2 (ops : NumOps) (T_e : ℚ) (n_e k : Option ℚ) :
    Except PErr (ℚ × List PWarn) :=
  match n_e, k with
  | some ne, some kv =>
      (Debye_length ops T_e ne).map fun lD => ((kv * lD) ^ 2, ([] : List PWarn))
  | none, none => .ok (0, [])
  | _, _ => .ok (0, [PWarn.physicsWarning])

/-- The final step of `ion_sound_speed` (parameters.py lines 388-392): the
`try` block evaluating `V_S` and converting it to m/s.  A failure of any
kind in that step is replaced by
`ValueError("Unable to find ion sound speed.")`; on success the dispersion
warnings collected earlier accompany the value. -/
def iss_finish (warns : List PWarn) (r : Except PErr ℚ) : Except PErr (ℚ × List PWarn) :=
  match r with
  | .ok V => .ok (V, warns)
  | .error _ => .error (.valueError "Unable to find ion sound speed.")

/-- Embeds the body of `ion_sound_speed` (parameters.py lines 222-394) before
the `@check_relativistic` decorator: input validation, mass and charge
resolution, the adiabatic-index checks, the dispersion correction, and the
final `try` block in which any exception from evaluating
`sqrt((gamma_e * Z * k_B * T_e + gamma_i * k_B * T_i) / (m_i * (1 + klD2)))`
and converting it to m/s is replaced by
`ValueError("Unable to find ion sound speed.")`. -/
def ion_sound_speed_core (ops : NumOps) (atomic : Atomic) (T_e T_i : ℚ)
    (n_e k : Option ℚ) (gamma_e gamma_i : ℚ) (ion : String) (z_mean : Option ℚ) :
    Except PErr (ℚ × List PWarn) :=
  if T_e < 0 then .error .negativeValueError
  else if T_i < 0 then .error .negativeValueError
  else if opt_neg n_e then .error .negativeValueError
  else if opt_neg k then .error .negativeValueError
  else
    (atomic.particle_mass ion).bind fun m_i =>
    (grab_charge atomic ion z_mean).bind fun Z =>
    if gamma_e < 1 then
      .error (.physicsError "The adiabatic index for electrons must be between one and infinity")
    else if gamma_i < 1 then
      .error (.physicsError "The adiabatic index for ions must be between one and infinity")
    else
      (dispersion_klD2 ops T_e n_e k).bind fun kw =>
      iss_finish kw.2
        (ops.to_m_per_s (ops.sqrt ((gamma_e * Z * k_B * T_e + gamma_i * k_B * T_i) / (m_i * (1 + kw.1)))))

/-- Embeds `ion_sound_speed`: the body wrapped by the Relativistic Guard. -/
def ion_sound_speed (ops : NumOps) (atomic : Atomic) (T_e T_i : ℚ)
    (n_e k : Option ℚ) (gamma_e gamma_i : ℚ) (ion : String) (z_mean : Option ℚ) :
    Except PErr (ℚ × List PWarn) :=
  guarded (ion_sound_speed_core ops atomic T_e T_i n_e k gamma_e gamma_i ion z_mean)

/-- Embeds the `method` dispatch of `thermal_speed` (parameters.py lines
490-498): the speed as a function of temperature for a particle of mass `m`,
or the fatal `ValueError` on an unknown method string. -/
def vth_of (ops : NumOps) (m : ℚ) (method : String) : Except PErr (ℚ → ℚ) :=
  if method = "most_probable" then .ok fun T => ops.sqrt (2 * k_B * T / m)
  else if method = "rms" then .ok fun T => ops.sqrt (3 * k_B * T / m)
  else if method = "mean_magnitude" then .ok fun T => ops.sqrt (8 * k_B * T / (m * ops.pi))
  else .error (.valueError "Method not supported in thermal_speed")

/-- The `ValidationSpec` declared for `thermal_speed`'s `mass` parameter
(parameters.py line 400): `can_be_negative: False, can_be_nan: True`. -/
def mass_validation : ValidationSpec :=
  { can_be_negative := false, can_be_nan := true }

/-- Embeds the body of `thermal_speed` (parameters.py lines 397-500) on a
scalar temperature, before the `@check_relativistic` decorator: the
decorator validates `T` (non-negative) and `mass` (non-negative, NaN
allowed, NaN kg being the declared default), `@atomic.particle_input`
resolves the particle, and the body uses the `mass` override when it is
finite and the particle's resolved mass otherwise
(`m = mass if np.isfinite(mass) else atomic.particle_mass(particle)`). -/
def thermal_speed_core (ops : NumOps) (atomic : Atomic) (T : ℚ) (particle : String)
    (method : String) (mass : Option ℚ) : Except PErr ℚ :=
  if T < 0 then .error .negativeValueError
  else
    (validate_value mass_validation mass).bind fun mv =>
    (atomic.particle_mass particle).bind fun pm =>
    (vth_of ops (mv.getD pm) method).map fun f => f T

/-- Embeds `thermal_speed` on a scalar temperature: the body wrapped by the
Relativistic Guard. -/
def thermal_speed (ops : NumOps) (atomic : Atomic) (T : ℚ) (particle : String)
    (method : String) (mass : Option ℚ) : Except PErr (ℚ × List PWarn) :=
  (thermal_speed_core ops atomic T particle method mass).bind check_relativistic1

/-- Embeds `thermal_speed` applied to an array temperature (as `gyroradius`
does), before the guard: the validator rejects NaN (`can_be_nan` is false
for `T`) and negative elements, the method is dispatched once, and the
formula is applied elementwise.  The `mass` override is left at its NaN
default, as in every array call site. -/
def thermal_speed_list_core (ops : NumOps) (atomic : Atomic) (Ts : List (Option ℚ))
    (particle : String) (method : String) : Except PErr (List ℚ) :=
  if Ts.any (fun t => t.isNone) then .error .invalidValueError
  else if Ts.reduceOption.any (fun t => decide (t < 0)) then .error .negativeValueError
  else
    (atomic.particle_mass particle).bind fun pm =>
    (vth_of ops pm method).map fun f => Ts.reduceOption.map f

/-- Embeds `thermal_speed` on an array temperature: the body wrapped by the
Relativistic Guard, which tests the maximum magnitude across elements. -/
def thermal_speed_list (ops : NumOps) (atomic : Atomic) (Ts : List (Option ℚ))
    (particle : String) (method : String) : Except PErr (List ℚ × List PWarn) :=
  (thermal_speed_list_core ops atomic Ts particle method).bind check_relativistic_list

/-- Embeds the body of `kappa_thermal_speed` (parameters.py lines 551-652)
before the `@check_relativistic` decorator: `kappa ≤ 3/2` is fatal; the
Maxwellian `thermal_speed` result is scaled by `sqrt((kappa - 3/2) / kappa)`
for the `most_probable` method only. -/
def kappa_thermal_speed_core (ops : NumOps) (atomic : Atomic) (T kappa : ℚ)
    (particle : String) (method : String) : Except PErr (ℚ × List PWarn) :=
  if kappa ≤ 3 / 2 then
    .error (.valueError "Must have kappa greater than 3/2 for kappa distribution function to be valid.")
  else
    (thermal_speed ops atomic T particle method none).map fun r =>
      (r.1 * (if method = "most_probable" then ops.sqrt ((kappa - 3 / 2) / kappa) else 1), r.2)

/-- Embeds `kappa_thermal_speed`: the body wrapped by the Relativistic
Guard (the inner `thermal_speed` call is itself guarded as well). -/
def kappa_thermal_speed (ops : NumOps) (atomic : Atomic) (T kappa : ℚ)
    (particle : String) (method : String) : Except PErr (ℚ × List PWarn) :=
  guarded (kappa_thermal_speed_core ops atomic T kappa particle method)

/-- Embeds `gyrofrequency` (parameters.py lines 725-826):
`omega_c = Z * e * |B| / m` with `Z` from `_grab_charge`, replaced by `|Z|`
unless `signed`. -/
def gyrofrequency (atomic : Atomic) (B : ℚ) (particle : String) (signed : Bool)
    (Z : Option ℚ) : Except PErr ℚ :=
  (atomic.particle_mass particle).bind fun m_i =>
  (grab_charge atomic particle Z).bind fun Z0 =>
  let Z1 := if signed then Z0 else |Z0|
  .ok (Z1 * e_charge * |B| / m_i)

/-- Embeds `plasma_frequency` (parameters.py lines 976-1074): the decorator
declares `n` as `can_be_negative: False`, so a negative density fails before
the body runs; then `omega_p = |Z| * e * sqrt(n / (eps0 * m))`.  The outer
`try` turns a mass resolution failure into a `ValueError`; the inner `try`
replaces a failed charge lookup (with `z_mean` absent) by `Z = 1`. -/
def plasma_frequency (ops : NumOps) (atomic : Atomic) (n : ℚ) (particle : String)
    (z_mean : Option ℚ) : Except PErr ℚ :=
  if n < 0 then .error .negativeValueError
  else
    match atomic.particle_mass particle with
    | .error _ => .error (.valueError "Invalid particle in plasma_frequency.")
    | .ok m =>
        let Z : ℚ :=
          match z_mean with
          | none =>
              match atomic.integer_charge particle with
              | .ok z => (z : ℚ)
              | .error _ => 1
          | some zm => zm
        .ok (|Z| * e_charge * ops.sqrt (n / (eps0 * m)))

/-- A scalar-or-array quantity whose elements may be NaN, as `gyroradius`
receives for `Vperp` and `T_i` (spec §9 recommends exactly this tagged
variant for the scalar/array dual mode). -/
inductive QVal where
  | scalar (x : Option ℚ)
  | array (xs : List (Option ℚ))
  deriving DecidableEq, Repr

/-- One position of `np.logical_not(np.logical_xor(isfinite_Vperp, isfinite_Ti))`:
true when the two elements are both finite or both NaN. -/
def badPair (v t : Option ℚ) : Bool :=
  v.isSome == t.isSome

/-- Embeds check 1 of `gyroradius` (parameters.py lines 929-935): some
broadcast position has `Vperp` and `T_i` both finite or both NaN. -/
def gyro_bad_xor : QVal → QVal → Bool
  | .scalar v, .scalar t => badPair v t
  | .scalar v, .array ts => ts.any fun t => badPair v t
  | .array vs, .scalar t => vs.any fun v => badPair v t
  | .array vs, .array ts => (vs.zip ts).any fun p => badPair p.1 p.2

/-- Two arrays of different lengths cannot be broadcast together: numpy
raises its own `ValueError` inside check 1 before anything else runs. -/
def qval_mismatch : QVal → QVal → Bool
  | .array vs, .array ts => vs.length != ts.length
  | _, _ => false

/-- Embeds `Vperp = Vperp.copy()` (parameters.py line 966): the masked
assignment that follows targets this copy, so the buffer the caller's
`Vperp` array holds is never written; the call leaves it equal to the
original.  Had the code omitted `.copy()`, the caller's buffer would
instead end up overwritten at the `isfinite_Ti` positions. -/
def vperp_copy (vs : List (Option ℚ)) : List (Option ℚ) := vs

/-- Embeds `Vperp[isfinite_Ti] = thermal_speed(T_i[isfinite_Ti])`
(parameters.py line 967): walk `Vperp` and `T_i` together, replacing the
element wherever `T_i` is finite by the next computed thermal speed. -/
def overwriteFinite : List (Option ℚ) → List (Option ℚ) → List ℚ → List (Option ℚ)
  | v :: vs, t :: ts, rs =>
      match t with
      | some _ =>
          match rs with
          | r :: rs2 => some r :: overwriteFinite vs ts rs2
          | [] => v :: overwriteFinite vs ts []
      | none => v :: overwriteFinite vs ts rs
  | vs, _, _ => vs

/-- Elementwise map over a scalar-or-array quantity (NaN propagates). -/
def qval_map (f : ℚ → ℚ) : QVal → QVal
  | .scalar v => .scalar (v.map f)
  | .array vs => .array (vs.map fun v => v.map f)

/-- Embeds check 2 of `gyroradius` (parameters.py lines 937-967): the four
shape cases producing the effective `Vperp`. -/
def gyro_merge (ops : NumOps) (atomic : Atomic) (particle : String) :
    QVal → QVal → Except PErr QVal
  | .scalar v, .scalar t =>
      match t with
      | some tv =>
          (thermal_speed ops atomic tv particle "most_probable" none).map fun r =>
            .scalar (some r.1)
      | none => .ok (.scalar v)
  | .scalar v, .array ts =>
      if v.isSome then .ok (.array (List.replicate ts.length v))
      else
        (thermal_speed_list ops atomic ts particle "most_probable").map fun r =>
          .array (r.1.map some)
  | .array vs, .scalar t =>
      match t with
      | some tv =>
          (thermal_speed_list ops atomic (List.replicate vs.length (some tv)) particle "most_probable").map fun r =>
            .array (r.1.map some)
      | none => .ok (.array vs)
  | .array vs, .array ts =>
      (thermal_speed_list ops atomic (ts.filter fun t => t.isSome) particle "most_probable").map fun r =>
        .array (overwriteFinite (vperp_copy vs) ts r.1)

/-- Embeds `gyroradius` (parameters.py lines 829-973): check 1 (elementwise
exclusive-or of finiteness, fatal `ValueError` on violation), check 2 (the
four shape cases), then `r_L = |Vperp| / gyrofrequency(B, particle)`. -/
def gyroradius (ops : NumOps) (atomic : Atomic) (B : ℚ) (particle : String)
    (Vperp T_i : QVal) : Except PErr QVal :=
  if qval_mismatch Vperp T_i then
    .error (.valueError "operands could not be broadcast together")
  else if gyro_bad_xor Vperp T_i then
    .error (.valueError "Must give Vperp or T_i, but not both, as arguments to gyroradius")
  else
    (gyro_merge ops atomic particle Vperp T_i).bind fun Vp =>
    (gyrofrequency atomic B particle false none).bind fun w =>
    .ok (qval_map (fun v => |v| / w) Vp)

/-- Embeds `lower_hybrid_frequency` (parameters.py lines 1456-1537): the
decorator declares `n_i` as `can_be_negative: False`, so a negative density
fails before the body runs; then the charge lookup whose sole intent is to
catch invalid ions (failure becomes `ValueError`), then
`omega_lh = ((omega_ci * omega_ce) ** -1 + omega_pi ** -2) ** -0.5`. -/
def lower_hybrid_frequency (ops : NumOps) (atomic : Atomic) (B n_i : ℚ)
    (ion : String) : Except PErr ℚ :=
  if n_i < 0 then .error .negativeValueError
  else
    match atomic.integer_charge ion with
    | .error _ => .error (.valueError "Invalid ion in lower_hybrid_frequency.")
    | .ok _ =>
        (gyrofrequency atomic B ion false none).bind fun wci =>
        (plasma_frequency ops atomic n_i ion none).bind fun wpi =>
        (gyrofrequency atomic B "e-" false none).bind fun wce =>
        .ok (ops.powNegHalf ((wci * wce)⁻¹ + (wpi ^ 2)⁻¹))

/-- Test substrate: identity square root and conversions (only the call
structure matters for the witnesses). -/
def opsId : NumOps :=
  { sqrt := fun x => x, pi := 3, powNegHalf := fun x => x, to_m_per_s := fun x => .ok x }

/-- Test substrate whose m/s conversion fails, as a unit mismatch inside
`ion_sound_speed`'s `try` block would. -/
def opsFail : NumOps :=
  { sqrt := fun x => x, pi := 3, powNegHalf := fun x => x,
    to_m_per_s := fun _ => .error (.typeError "cannot convert to speed units") }

/-- Test resolver: every descriptor has mass 1 kg and charge 1. -/
def atomicW : Atomic :=
  { particle_mass := fun _ => .ok 1, integer_charge := fun _ => .ok 1 }

/-- Test resolver: mass resolves (2 kg) but the charge lookup fails, the
situation `plasma_frequency` silently repairs with `Z = 1`. -/
def atomicHalf : Atomic :=
  { particle_mass := fun _ => .ok 2,
    integer_charge := fun _ => .error (.invalidParticleError "unrecognized descriptor") }

/-- Test resolver: every lookup fails (unknown species). -/
def atomicNone : Atomic :=
  { particle_mass := fun _ => .error (.invalidParticleError "unrecognized descriptor"),
    integer_charge := fun _ => .error (.invalidParticleError "unrecognized descriptor") }

/-- Test resolver for the deuteron scenario: mass `m_D`, charge 1. -/
def atomicD : Atomic :=
  { particle_mass := fun _ => .ok m_D, integer_charge := fun _ => .ok 1 }

/-- Specification of one output element of `gyroradius` in the two-arrays
case: where `T_i` is finite the element is the (most-probable) thermal speed
at that temperature over the gyrofrequency, elsewhere it is the caller's
`Vperp` element over the gyrofrequency. -/
def gyro_elem_spec (speed : ℚ → ℚ) (omega : ℚ) (v t : Option ℚ) : Option ℚ :=
  match t with
  | some tv => some (|speed tv| / omega)
  | none => v.map fun x => |x| / omega

/-- Claim C1: for every particle descriptor and every provided `z_mean`
override (negative, zero, or fractional included), `_grab_charge` returns
exactly `z_mean`, never a value derived from the particle's intrinsic
charge; when `z_mean` is absent it returns the particle's resolved integer
charge. -/
theorem grab_charge_spec (atomic : Atomic) (ion : String) (z : ℚ) :
    grab_charge atomic ion (some z) = Except.ok z ∧
    grab_charge atomic ion none
      = (atomic.integer_charge ion).map (fun k => (k : ℚ)) :=
  ⟨rfl, rfl⟩

/-- Claim C2: for every valid (non-negative, per the decorator) number
density, `plasma_frequency` computes `omega_p = |Z| e sqrt(n/(eps0 m))`;
when `z_mean` is absent and the charge lookup fails it uses `Z = 1` and
still returns a result, while a failed mass resolution is fatal, raised as
`ValueError`; a negative density fails validation before the body runs. -/
theorem plasma_frequency_spec (ops : NumOps) (atomic : Atomic) (n : ℚ) (p : String)
    (hn : 0 ≤ n) :
    (∀ nneg : ℚ, nneg < 0 → ∀ zm,
      plasma_frequency ops atomic nneg p zm = .error .negativeValueError) ∧
    (∀ err, atomic.particle_mass p = .error err →
      ∀ zm, plasma_frequency ops atomic n p zm
        = .error (.valueError "Invalid particle in plasma_frequency.")) ∧
    (∀ m, atomic.particle_mass p = .ok m →
      (∀ zm : ℚ, plasma_frequency ops atomic n p (some zm)
          = .ok (|zm| * e_charge * ops.sqrt (n / (eps0 * m)))) ∧
      (∀ z : ℤ, atomic.integer_charge p = .ok z →
          plasma_frequency ops atomic n p none
            = .ok (|(z : ℚ)| * e_charge * ops.sqrt (n / (eps0 * m)))) ∧
      (∀ err, atomic.integer_charge p = .error err →
          plasma_frequency ops atomic n p none
            = .ok (|(1 : ℚ)| * e_charge * ops.sqrt (n / (eps0 * m))))) := by
  refine ⟨fun nneg hneg zm => ?_,
    fun err herr zm => ?_, fun m hm => ⟨fun zm => ?_, fun z hz => ?_, fun err herr => ?_⟩⟩
  · simp [plasma_frequency, hneg]
  · cases zm <;> simp [plasma_frequency, not_lt.mpr hn, herr]
  · simp [plasma_frequency, not_lt.mpr hn, hm]
  · simp [plasma_frequency, not_lt.mpr hn, hm, hz]
  · simp [plasma_frequency, not_lt.mpr hn, hm, herr]

/-- Witness for C2 at a resolver whose mass lookup gives 2 kg and whose
charge lookup fails: the silent `Z = 1` fallback fires; a negative density
is rejected. -/
theorem plasma_frequency_spec_witness :
    plasma_frequency opsId atomicHalf 4 "q" none
      = .ok (|(1 : ℚ)| * e_charge * opsId.sqrt (4 / (eps0 * 2))) ∧
    plasma_frequency opsId atomicHalf (-1) "q" none
      = .error .negativeValueError :=
  ⟨((plasma_frequency_spec opsId atomicHalf 4 "q" (by norm_num)).2.2 2 rfl).2.2
      (.invalidParticleError "unrecognized descriptor") rfl,
   (plasma_frequency_spec opsId atomicHalf 4 "q" (by norm_num)).1
      (-1) (by norm_num) none⟩

/-- Claim C6: `mass_density` returns a mass-density input unchanged, turns a
number density `n` with a particle into `n * m_i + Z * n * m_e` with `Z`
from the charge merge, and fails with `ValueError` on a number density
without a particle. -/
theorem mass_density_spec (atomic : Atomic) (p : String) (zm : Option ℚ) :
    (∀ rho : ℚ, 0 ≤ rho → ∀ part : Option String,
        mass_density atomic (.massDensity rho) part zm = .ok rho) ∧
    (∀ n : ℚ, 0 ≤ n →
        mass_density atomic (.numberDensity n) none zm
          = .error (.valueError "If passing a number density, you must pass a particle to calculate the mass density!")) ∧
    (∀ n m_i Z : ℚ, 0 ≤ n → atomic.particle_mass p = .ok m_i →
        grab_charge atomic p zm = .ok Z →
        0 ≤ n * m_i + Z * n * m_e →
        mass_density atomic (.numberDensity n) (some p) zm
          = .ok (n * m_i + Z * n * m_e)) := by
  refine ⟨fun rho h part => ?_, fun n h => ?_, fun n m_i Z hn hm hZ hr => ?_⟩
  · simp [mass_density, not_lt.mpr h]
  · simp [mass_density, not_lt.mpr h]
  · simp [mass_density, Except.bind, not_lt.mpr hn, hm, hZ, not_lt.mpr hr]

/-- Witness for C6: the spec's concrete scenario, a number density of
4 per cubic meter of singly ionized deuterium. -/
theorem mass_density_spec_witness :
    mass_density atomicD (.numberDensity 4) (some "D+") none
      = .ok (4 * m_D + ((1 : ℤ) : ℚ) * 4 * m_e) :=
  (mass_density_spec atomicD "D+" none).2.2 4 m_D ((1 : ℤ) : ℚ)
    (by norm_num) rfl rfl (by norm_num [m_D, m_e])

/-- Claim C3: `gyroradius` raises `ValueError` whenever, at some broadcast
position, `Vperp` and `T_i` are both finite or both NaN (in particular for
every such scalar pair), and a successful call implies the elementwise
exclusive-or of finiteness held at every position. -/
theorem gyroradius_xor_spec (ops : NumOps) (atomic : Atomic) (B : ℚ) (p : String)
    (Vperp T_i : QVal) :
    (∀ v t : Option ℚ, v.isSome = t.isSome →
      gyroradius ops atomic B p (.scalar v) (.scalar t)
        = .error (.valueError "Must give Vperp or T_i, but not both, as arguments to gyroradius")) ∧
    (gyro_bad_xor Vperp T_i = true → qval_mismatch Vperp T_i = false →
      gyroradius ops atomic B p Vperp T_i
        = .error (.valueError "Must give Vperp or T_i, but not both, as arguments to gyroradius")) ∧
    (∀ r, gyroradius ops atomic B p Vperp T_i = .ok r → gyro_bad_xor Vperp T_i = false) := by
  refine ⟨fun v t h => ?_, fun hbad hmm => ?_, fun r h => ?_⟩
  · simp [gyroradius, qval_mismatch, gyro_bad_xor, badPair, h]
  · simp [gyroradius, hmm, hbad]
  · by_contra hb
    rw [Bool.not_eq_false] at hb
    cases hmm : qval_mismatch Vperp T_i <;> simp [gyroradius, hmm, hb] at h

/-- Witness for C3: a scalar pair with both values finite is rejected. -/
theorem gyroradius_xor_spec_witness :
    gyroradius opsId atomicW 1 "p" (.scalar (some 1)) (.scalar (some 1))
      = .error (.valueError "Must give Vperp or T_i, but not both, as arguments to gyroradius") :=
  (gyroradius_xor_spec opsId atomicW 1 "p" (.scalar (some 1)) (.scalar (some 1))).1
    (some 1) (some 1) rfl

/-- Claim C5: for a valid (non-negative, per the decorator) ion density,
`lower_hybrid_frequency` validates the ion by a charge lookup whose failure
is a `ValueError`, and otherwise returns
`((omega_ci * omega_ce)⁻¹ + omega_pi⁻²) ^ (-1/2)` built from
`gyrofrequency(B, ion)`, `gyrofrequency(B, electron)` and
`plasma_frequency(n_i, ion)`; a negative density fails validation before
the body runs. -/
theorem lower_hybrid_frequency_spec (ops : NumOps) (atomic : Atomic) (B n_i : ℚ)
    (ion : String) (hn : 0 ≤ n_i) :
    (∀ nneg : ℚ, nneg < 0 →
      lower_hybrid_frequency ops atomic B nneg ion = .error .negativeValueError) ∧
    (∀ err, atomic.integer_charge ion = .error err →
      lower_hybrid_frequency ops atomic B n_i ion
        = .error (.valueError "Invalid ion in lower_hybrid_frequency.")) ∧
    (∀ z : ℤ, atomic.integer_charge ion = .ok z →
      ∀ wci wpi wce : ℚ,
        gyrofrequency atomic B ion false none = .ok wci →
        plasma_frequency ops atomic n_i ion none = .ok wpi →
        gyrofrequency atomic B "e-" false none = .ok wce →
        lower_hybrid_frequency ops atomic B n_i ion
          = .ok (ops.powNegHalf ((wci * wce)⁻¹ + (wpi ^ 2)⁻¹))) := by
  refine ⟨fun nneg hneg => ?_, fun err herr => ?_, fun z hz wci wpi wce h1 h2 h3 => ?_⟩
  · simp [lower_hybrid_frequency, hneg]
  · simp [lower_hybrid_frequency, not_lt.mpr hn, herr]
  · simp [lower_hybrid_frequency, not_lt.mpr hn, Except.bind, hz, h1, h2, h3]

/-- Witness for C5 at the all-ones resolver, plus the rejection of a
negative ion density. -/
theorem lower_hybrid_frequency_spec_witness :
    lower_hybrid_frequency opsId atomicW 1 1 "p"
      = .ok (opsId.powNegHalf
          (((|((1 : ℤ) : ℚ)| * e_charge * |(1 : ℚ)| / 1)
              * (|((1 : ℤ) : ℚ)| * e_charge * |(1 : ℚ)| / 1))⁻¹
            + ((|((1 : ℤ) : ℚ)| * e_charge * opsId.sqrt (1 / (eps0 * 1))) ^ 2)⁻¹)) ∧
    lower_hybrid_frequency opsId atomicW 1 (-1) "p"
      = .error .negativeValueError :=
  ⟨(lower_hybrid_frequency_spec opsId atomicW 1 1 "p" (by norm_num)).2.2 1 rfl
      _ _ _ rfl (by norm_num [plasma_frequency, atomicW]) rfl,
   (lower_hybrid_frequency_spec opsId atomicW 1 1 "p" (by norm_num)).1
      (-1) (by norm_num)⟩

/-- Claim C9: `thermal_speed` accepts a NaN mass override without
`InvalidValueError` (`can_be_nan` is declared true for `mass`, and NaN kg is
its default): a non-finite override means the particle's resolved mass is
used, and a finite override replaces the resolved mass in the speed
formula. -/
theorem thermal_speed_mass_spec (ops : NumOps) (atomic : Atomic) (T : ℚ)
    (p : String) (method : String) (hT : 0 ≤ T) :
    validate_value mass_validation none = .ok none ∧
    thermal_speed_core ops atomic T p method none
      = (atomic.particle_mass p).bind
          (fun pm => (vth_of ops pm method).map fun f => f T) ∧
    (∀ mv : ℚ, 0 ≤ mv →
      thermal_speed_core ops atomic T p method (some mv)
        = (atomic.particle_mass p).bind
            (fun _ => (vth_of ops mv method).map fun f => f T)) ∧
    (∀ mass, thermal_speed ops atomic T p method mass
        = (thermal_speed_core ops atomic T p method mass).bind check_relativistic1) := by
  refine ⟨rfl, ?_, fun mv hmv => ?_, fun mass => rfl⟩
  · simp [thermal_speed_core, validate_value, mass_validation, Except.bind, not_lt.mpr hT]
  · simp [thermal_speed_core, validate_value, mass_validation, Except.bind,
      not_lt.mpr hT, not_lt.mpr hmv]

/-- Witness for C9: NaN default falls back to the resolved mass, a finite
override of 5 kg replaces it. -/
theorem thermal_speed_mass_spec_witness :
    thermal_speed_core opsId atomicW 1 "p" "most_probable" none
      = (atomicW.particle_mass "p").bind
          (fun pm => (vth_of opsId pm "most_probable").map fun f => f 1) ∧
    thermal_speed_core opsId atomicW 1 "p" "most_probable" (some 5)
      = (atomicW.particle_mass "p").bind
          (fun _ => (vth_of opsId 5 "most_probable").map fun f => f 1) :=
  ⟨(thermal_speed_mass_spec opsId atomicW 1 "p" "most_probable" (by norm_num)).2.1,
   (thermal_speed_mass_spec opsId atomicW 1 "p" "most_probable" (by norm_num)).2.2.1
     5 (by norm_num)⟩

/-- Helper: `Except.map Prod.fst` after the guard does not see the warning
list threaded through `iss_finish`. -/
theorem map_fst_guarded_finish (w1 w2 : List PWarn) (r : Except PErr ℚ) :
    Except.map Prod.fst (guarded (iss_finish w1 r))
      = Except.map Prod.fst (guarded (iss_finish w2 r)) := by
  cases r with
  | error e => rfl
  | ok V =>
      simp only [iss_finish, guarded, Except.bind]
      cases check_relativistic1 V <;> simp [Except.map]

/-- Claim C7: every speed-valued formula (`thermal_speed`, `Alfven_speed`,
`ion_sound_speed`, `kappa_thermal_speed`) routes its result through the
Relativistic Guard: `|v| ≥ c` is a fatal `RelativityError`,
`0.05 c ≤ |v| < c` succeeds with a `RelativityWarning` and the value
returned unchanged, `|v| < 0.05 c` succeeds silently; an array-valued
result is tested on the maximum magnitude across elements. -/
theorem relativistic_guard_spec (v : ℚ) (vs : List ℚ) :
    (c ≤ |v| → check_relativistic1 v = .error .relativityError) ∧
    (5 / 100 * c ≤ |v| → |v| < c →
      check_relativistic1 v = .ok (v, [PWarn.relativityWarning])) ∧
    (|v| < 5 / 100 * c → check_relativistic1 v = .ok (v, [])) ∧
    (c ≤ maxAbs vs → check_relativistic_list vs = .error .relativityError) ∧
    (5 / 100 * c ≤ maxAbs vs → maxAbs vs < c →
      check_relativistic_list vs = .ok (vs, [PWarn.relativityWarning])) ∧
    (maxAbs vs < 5 / 100 * c → check_relativistic_list vs = .ok (vs, [])) ∧
    (∀ ops atomic T p method mass,
      thermal_speed ops atomic T p method mass
        = (thermal_speed_core ops atomic T p method mass).bind check_relativistic1) ∧
    (∀ ops atomic B density ion zm,
      Alfven_speed ops atomic B density ion zm
        = (Alfven_speed_core ops atomic B density ion zm).bind check_relativistic1) ∧
    (∀ ops atomic T_e T_i n_e k ge gi ion zm,
      ion_sound_speed ops atomic T_e T_i n_e k ge gi ion zm
        = guarded (ion_sound_speed_core ops atomic T_e T_i n_e k ge gi ion zm)) ∧
    (∀ ops atomic T kappa p method,
      kappa_thermal_speed ops atomic T kappa p method
        = guarded (kappa_thermal_speed_core ops atomic T kappa p method)) := by
  refine ⟨fun h => ?_, fun h1 h2 => ?_, fun h => ?_, fun h => ?_, fun h1 h2 => ?_,
    fun h => ?_, fun _ _ _ _ _ _ => rfl, fun _ _ _ _ _ _ => rfl,
    fun _ _ _ _ _ _ _ _ _ _ => rfl, fun _ _ _ _ _ _ => rfl⟩
  · simp [check_relativistic1, h]
  · simp [check_relativistic1, not_le.mpr h2, h1]
  · have h2 : |v| < c := h.trans_le (by norm_num [c])
    simp [check_relativistic1, not_le.mpr h2, not_le.mpr h]
  · simp [check_relativistic_list, h]
  · simp [check_relativistic_list, not_le.mpr h2, h1]
  · have h2 : maxAbs vs < c := h.trans_le (by norm_num [c])
    simp [check_relativistic_list, not_le.mpr h2, not_le.mpr h]

/-- Witness for C7: the exact speed of light is fatal (scalar and as the
maximum of an array) and a vanishing speed passes silently. -/
theorem relativistic_guard_spec_witness :
    check_relativistic1 c = .error .relativityError ∧
    check_relativistic1 0 = .ok (0, []) ∧
    check_relativistic_list [c] = .error .relativityError :=
  ⟨(relativistic_guard_spec c []).1 (le_abs_self c),
   (relativistic_guard_spec 0 []).2.2.1 (by norm_num [c]),
   (relativistic_guard_spec 0 [c]).2.2.2.1
     (le_trans (le_abs_self c) (le_max_right 0 |c|))⟩

/-- Claim C4: with neither `n_e` nor `k` given, `ion_sound_speed` equals the
call with `n_e` given and `k = 0` (both evaluate with `klD2 = 0`); with
exactly one of them given, `klD2 = 0` is likewise used, with a non-fatal
warning, and the returned value equals the neither-given case. -/
theorem ion_sound_speed_dispersion_spec (ops : NumOps) (atomic : Atomic)
    (T_e T_i x : ℚ) (ge gi : ℚ) (ion : String) (zm : Option ℚ)
    (hTe : 0 ≤ T_e) (hTi : 0 ≤ T_i) (hx : 0 ≤ x) :
    ion_sound_speed ops atomic T_e T_i none none ge gi ion zm
      = ion_sound_speed ops atomic T_e T_i (some x) (some 0) ge gi ion zm ∧
    dispersion_klD2 ops T_e none none = .ok (0, []) ∧
    dispersion_klD2 ops T_e (some x) none = .ok (0, [PWarn.physicsWarning]) ∧
    dispersion_klD2 ops T_e none (some x) = .ok (0, [PWarn.physicsWarning]) ∧
    Except.map Prod.fst (ion_sound_speed ops atomic T_e T_i (some x) none ge gi ion zm)
      = Except.map Prod.fst (ion_sound_speed ops atomic T_e T_i none none ge gi ion zm) ∧
    Except.map Prod.fst (ion_sound_speed ops atomic T_e T_i none (some x) ge gi ion zm)
      = Except.map Prod.fst (ion_sound_speed ops atomic T_e T_i none none ge gi ion zm) := by
  have hx' : opt_neg (some x) = false := by simp [opt_neg, not_lt.mpr hx]
  have h0' : opt_neg (some (0 : ℚ)) = false := by simp [opt_neg]
  have hn' : opt_neg (none : Option ℚ) = false := rfl
  have hd00 : dispersion_klD2 ops T_e none none = .ok (0, []) := rfl
  have hdx0 : dispersion_klD2 ops T_e (some x) (some 0) = .ok (0, []) := by
    simp [dispersion_klD2, Debye_length, not_lt.mpr hTe, not_lt.mpr hx, Except.map]
  refine ⟨?_, hd00, rfl, rfl, ?_, ?_⟩
  · simp only [ion_sound_speed, ion_sound_speed_core, hx', h0', hn', hd00, hdx0]
  · simp only [ion_sound_speed, ion_sound_speed_core, hx', hn', hd00,
      show dispersion_klD2 ops T_e (some x) none = .ok (0, [PWarn.physicsWarning]) from rfl,
      if_neg (not_lt.mpr hTe), if_neg (not_lt.mpr hTi), Bool.false_eq_true, if_false]
    cases hpm : atomic.particle_mass ion with
    | error e => rfl
    | ok m_i =>
        simp only [Except.bind]
        cases hgc : grab_charge atomic ion zm with
        | error e => rfl
        | ok Z =>
            split_ifs with hge' hgi'
            · rfl
            · rfl
            · exact map_fst_guarded_finish _ _ _
  · simp only [ion_sound_speed, ion_sound_speed_core, hx', hn', hd00,
      show dispersion_klD2 ops T_e none (some x) = .ok (0, [PWarn.physicsWarning]) from rfl,
      if_neg (not_lt.mpr hTe), if_neg (not_lt.mpr hTi), Bool.false_eq_true, if_false]
    cases hpm : atomic.particle_mass ion with
    | error e => rfl
    | ok m_i =>
        simp only [Except.bind]
        cases hgc : grab_charge atomic ion zm with
        | error e => rfl
        | ok Z =>
            split_ifs with hge' hgi'
            · rfl
            · rfl
            · exact map_fst_guarded_finish _ _ _

/-- Witness for C4: neither-given equals given-with-zero-wavenumber at
concrete inputs. -/
theorem ion_sound_speed_dispersion_spec_witness :
    ion_sound_speed opsId atomicW 1 1 none none 1 3 "p" none
      = ion_sound_speed opsId atomicW 1 1 (some 1) (some 0) 1 3 "p" none :=
  (ion_sound_speed_dispersion_spec opsId atomicW 1 1 1 1 3 "p" none
    (by norm_num) (by norm_num) (by norm_num)).1

/-- Claim C10: any exception raised while evaluating the final `V_S`
expression or converting it to m/s is replaced by
`ValueError("Unable to find ion sound speed.")`; no other exception type
escapes from that final computation step (a successful conversion reaches
the Relativistic Guard untouched). -/
theorem ion_sound_speed_try_spec (ops : NumOps) (atomic : Atomic) (T_e T_i : ℚ)
    (n_e k : Option ℚ) (ge gi : ℚ) (ion : String) (zm : Option ℚ)
    (hTe : 0 ≤ T_e) (hTi : 0 ≤ T_i) (hne : opt_neg n_e = false)
    (hk : opt_neg k = false) (m_i Z : ℚ)
    (hm : atomic.particle_mass ion = .ok m_i)
    (hZ : grab_charge atomic ion zm = .ok Z) (hge : 1 ≤ ge) (hgi : 1 ≤ gi)
    (klD2 : ℚ) (warns : List PWarn)
    (hdisp : dispersion_klD2 ops T_e n_e k = .ok (klD2, warns)) :
    (∀ err, ops.to_m_per_s (ops.sqrt ((ge * Z * k_B * T_e + gi * k_B * T_i) / (m_i * (1 + klD2)))) = .error err →
      ion_sound_speed ops atomic T_e T_i n_e k ge gi ion zm
        = .error (.valueError "Unable to find ion sound speed.")) ∧
    (∀ V, ops.to_m_per_s (ops.sqrt ((ge * Z * k_B * T_e + gi * k_B * T_i) / (m_i * (1 + klD2)))) = .ok V →
      ion_sound_speed ops atomic T_e T_i n_e k ge gi ion zm
        = (check_relativistic1 V).map fun q => (q.1, warns ++ q.2)) := by
  have hred : ion_sound_speed_core ops atomic T_e T_i n_e k ge gi ion zm
      = iss_finish warns
          (ops.to_m_per_s (ops.sqrt ((ge * Z * k_B * T_e + gi * k_B * T_i) / (m_i * (1 + klD2))))) := by
    simp [ion_sound_speed_core, not_lt.mpr hTe, not_lt.mpr hTi, hne, hk,
      hm, hZ, Except.bind, hdisp, not_lt.mpr hge, not_lt.mpr hgi,
      not_lt.mpr (lt_of_lt_of_le zero_lt_one hge).le,
      not_lt.mpr (lt_of_lt_of_le zero_lt_one hgi).le]
  refine ⟨fun err herr => ?_, fun V hV => ?_⟩
  · simp [ion_sound_speed, hred, herr, iss_finish, guarded, Except.bind]
  · simp [ion_sound_speed, hred, hV, iss_finish, guarded, Except.bind]

/-- Witness for C10: a substrate whose m/s conversion fails makes
`ion_sound_speed` fail with exactly the replaced `ValueError`. -/
theorem ion_sound_speed_try_spec_witness :
    ion_sound_speed opsFail atomicW 1 1 none none 1 3 "p" none
      = .error (.valueError "Unable to find ion sound speed.") :=
  (ion_sound_speed_try_spec opsFail atomicW 1 1 none none 1 3 "p" none
      (by norm_num) (by norm_num) rfl rfl 1 ((1 : ℤ) : ℚ) rfl rfl
      (by norm_num) (by norm_num) 0 [] rfl).1
    (.typeError "cannot convert to speed units") rfl

/-- Helper: the elementwise exclusive-or of finiteness makes check 1 pass on
two arrays. -/
theorem bad_xor_arrays_false {vs ts : List (Option ℚ)}
    (h : List.Forall₂ (fun v t : Option ℚ => v.isSome = !t.isSome) vs ts) :
    gyro_bad_xor (.array vs) (.array ts) = false := by
  induction h with
  | nil => rfl
  | cons hvt htail ih =>
      rename_i v t vs' ts'
      simp only [gyro_bad_xor] at ih ⊢
      cases t <;> simp_all [badPair, List.zip_cons_cons]

/-- Helper: filtering an array to its finite elements leaves no NaN. -/
theorem filter_isSome_no_none (ts : List (Option ℚ)) :
    ((ts.filter fun t => t.isSome).any fun t => t.isNone) = false := by
  induction ts with
  | nil => rfl
  | cons t ts ih => cases t <;> simp [List.filter_cons, ih]

/-- Helper: the finite elements of an array are those of its finite
filtering. -/
theorem reduceOption_filter_isSome (ts : List (Option ℚ)) :
    (ts.filter fun t => t.isSome).reduceOption = ts.reduceOption := by
  induction ts with
  | nil => rfl
  | cons t ts ih => cases t <;> simp [List.filter_cons, ih]

/-- Helper: the masked overwrite of the `Vperp` copy followed by the
elementwise `|.| / omega` equals the per-index specification. -/
theorem overwrite_map_spec (f g : ℚ → ℚ) :
    ∀ (vs ts : List (Option ℚ)), vs.length = ts.length →
      (overwriteFinite vs ts (ts.reduceOption.map f)).map (fun v => v.map g)
        = List.zipWith (fun v t =>
            match t with
            | some tv => some (g (f tv))
            | none => v.map g) vs ts
  | [], [], _ => rfl
  | [], t :: ts, h => by simp at h
  | v :: vs, [], h => by simp at h
  | v :: vs, t :: ts, h => by
      cases t with
      | some tv =>
          simpa [overwriteFinite, List.reduceOption_cons_of_some] using
            overwrite_map_spec f g vs ts (by simpa using h)
      | none =>
          simpa [overwriteFinite, List.reduceOption_cons_of_none] using
            overwrite_map_spec f g vs ts (by simpa using h)

/-- Claim C8: on two sequences satisfying the elementwise exclusive-or
precondition, `gyroradius` returns the array whose element is
`|thermal_speed(T_i[i], particle)| / gyrofrequency(B, particle)` where
`T_i[i]` is finite and `|Vperp[i]| / gyrofrequency(B, particle)` where
`Vperp[i]` is finite; the caller's `Vperp` sequence is left unmodified, only
its copy being overwritten. -/
theorem gyroradius_arrays_spec (ops : NumOps) (atomic : Atomic) (B : ℚ) (p : String)
    (vs ts : List (Option ℚ)) (m : ℚ) (z : ℤ)
    (hxor : List.Forall₂ (fun v t : Option ℚ => v.isSome = !t.isSome) vs ts)
    (hm : atomic.particle_mass p = .ok m)
    (hz : atomic.integer_charge p = .ok z)
    (hT : (ts.reduceOption.any fun t => decide (t < 0)) = false)
    (hguard : maxAbs (ts.reduceOption.map fun T => ops.sqrt (2 * k_B * T / m)) < c) :
    gyroradius ops atomic B p (.array vs) (.array ts)
      = .ok (.array (List.zipWith
          (gyro_elem_spec (fun T => ops.sqrt (2 * k_B * T / m))
            (|(z : ℚ)| * e_charge * |B| / m)) vs ts)) ∧
    vperp_copy vs = vs := by
  have hlen := hxor.length_eq
  have hmm : qval_mismatch (.array vs) (.array ts) = false := by
    simp [qval_mismatch, hlen]
  have hbad := bad_xor_arrays_false hxor
  have hvth : vth_of ops m "most_probable"
      = .ok fun T => ops.sqrt (2 * k_B * T / m) := if_pos rfl
  have hcore : thermal_speed_list_core ops atomic (ts.filter fun t => t.isSome) p "most_probable"
      = .ok (ts.reduceOption.map fun T => ops.sqrt (2 * k_B * T / m)) := by
    simp [thermal_speed_list_core, filter_isSome_no_none, reduceOption_filter_isSome,
      hT, hm, hvth, Except.bind, Except.map]
  have hmerge : gyro_merge ops atomic p (.array vs) (.array ts)
      = .ok (.array (overwriteFinite vs ts
          (ts.reduceOption.map fun T => ops.sqrt (2 * k_B * T / m)))) := by
    simp only [gyro_merge, thermal_speed_list, hcore, Except.bind, check_relativistic_list,
      if_neg (not_le.mpr hguard), vperp_copy]
    split <;> simp [Except.map]
  have hfreq : gyrofrequency atomic B p false none
      = .ok (|(z : ℚ)| * e_charge * |B| / m) := by
    simp [gyrofrequency, grab_charge, hm, hz, Except.bind, Except.map]
  refine ⟨?_, rfl⟩
  simp only [gyroradius, hmm, hbad, Bool.false_eq_true, if_false, hmerge, hfreq,
    Except.bind, qval_map]
  rw [overwrite_map_spec (fun T => ops.sqrt (2 * k_B * T / m))
    (fun x => |x| / (|(z : ℚ)| * e_charge * |B| / m)) vs ts hlen]
  rfl

/-- Witness for C8: a mixed pair of two-element arrays at the all-ones
resolver. -/
theorem gyroradius_arrays_spec_witness :
    gyroradius opsId atomicW 1 "p" (.array [some 1, none]) (.array [none, some 0])
      = .ok (.array (List.zipWith
          (gyro_elem_spec (fun T => opsId.sqrt (2 * k_B * T / 1))
            (|((1 : ℤ) : ℚ)| * e_charge * |(1 : ℚ)| / 1))
          [some 1, none] [none, some 0])) ∧
    vperp_copy [some 1, none] = [some 1, none] :=
  gyroradius_arrays_spec opsId atomicW 1 "p" [some 1, none] [none, some 0] 1 1
    (List.Forall₂.cons rfl (List.Forall₂.cons rfl List.Forall₂.nil))
    rfl rfl (by norm_num) (by norm_num [maxAbs, opsId, k_B, c])

end Plasma
